import Mathlib

/-!
Verification development for the EventHorizon log-parsing core
(`src/lib/parser.ts`) and its caller (`src/app/page.tsx`).

The TypeScript source is shallowly embedded below:
pure helper functions become Lean functions, the regex literals are
transcribed into an explicit regex AST executed by a small
ECMAScript-style backtracking matcher, and the host's `new Date(string)`
parser is treated as an explicit parameter (`nd`), with a concrete
executable model `jsDateModel` (covering the date formats exercised by
the repository's log dialects) used to instantiate witnesses.
-/

/-- The nine-value severity enumeration from `src/lib/types.ts`
(`EventLevel`). -/
inductive EventLevel where
  | Information
  | Warning
  | Error
  | Critical
  | Verbose
  | Debug
  | Notice
  | Emergency
  | Alert
deriving DecidableEq, Repr

/-- Model of a valid JavaScript `Date`: broken-down calendar fields.
An invalid date (`NaN` timestamp) is modelled as `Option.none` wherever
a `Date` value flows.  `month` is the human month 1..12. -/
structure JsDate where
  year : Int
  month : Nat
  day : Nat
  hour : Nat
  minute : Nat
  second : Nat
deriving DecidableEq, Repr

/-- Model of `Date.prototype.getTime`: an order-isomorphic integer
encoding of the calendar fields (valid dates compare by
year/month/day/hour/minute/second lexicographically, exactly as their
epoch-millisecond values do). -/
def jsGetTime (d : JsDate) : Int :=
  ((((d.year * 13 + (d.month : Int)) * 32 + (d.day : Int)) * 24
      + (d.hour : Int)) * 60 + (d.minute : Int)) * 60 + (d.second : Int)

/-- The characters treated as whitespace by JavaScript `\s`, `trim`,
restricted to ASCII (all inputs in this repository are ASCII). -/
def isJsSpace (c : Char) : Bool :=
  c == ' ' || c == '\t' || c == '\n' || c == '\r' || c == '\x0b' || c == '\x0c'

/-- Model of `String.prototype.trim`. -/
def jsTrim (s : String) : String :=
  String.mk (((s.data.dropWhile isJsSpace).reverse.dropWhile isJsSpace).reverse)

/-- Substring test on character lists (helper for `jsIncludes`). -/
def listIncludes (sub : List Char) : List Char → Bool
  | [] => sub.isEmpty
  | c :: rest => sub.isPrefixOf (c :: rest) || listIncludes sub rest

/-- Model of `String.prototype.includes`. -/
def jsIncludes (s sub : String) : Bool :=
  listIncludes sub.data s.data

/-- Model of `String.prototype.toLowerCase` on ASCII text. -/
def jsToLower (s : String) : String := String.mk (s.data.map Char.toLower)

/-- Model of `String.prototype.toUpperCase` on ASCII text. -/
def jsToUpper (s : String) : String := String.mk (s.data.map Char.toUpper)

/-- `content.split(/\r?\n/)`: split on `\n` or `\r\n`; a lone `\r` is
kept; a trailing separator yields a trailing empty line, as in
JavaScript. -/
def splitLinesAux : List Char → List Char → List String
  | [], acc => [String.mk acc.reverse]
  | '\r' :: '\n' :: rest, acc => String.mk acc.reverse :: splitLinesAux rest []
  | '\n' :: rest, acc => String.mk acc.reverse :: splitLinesAux rest []
  | c :: rest, acc => splitLinesAux rest (c :: acc)

/-- Model of `fileContent.split(/\r?\n/)`. -/
def splitLines (s : String) : List String := splitLinesAux s.data []

/-- Decimal value of a digit string (model of `parseInt(s, 10)` on the
all-digit captures produced by the `\d+` regex groups). -/
def natOfDigits (s : String) : Nat :=
  s.data.foldl (fun a c => a * 10 + (c.toNat - '0'.toNat)) 0

/-- Read exactly `n` decimal digits from the front of a char list. -/
def readDigitsN : Nat → List Char → Option (Nat × List Char)
  | 0, rest => some (0, rest)
  | _ + 1, [] => none
  | n + 1, c :: rest =>
    if c.isDigit then
      match readDigitsN n rest with
      | some (v, rest2) => some ((c.toNat - '0'.toNat) * 10 ^ n + v, rest2)
      | none => none
    else none

/-- Read a maximal nonempty run of decimal digits. -/
def readDigitRun : List Char → Nat → Option (Nat × List Char)
  | [], acc => some (acc, [])
  | c :: rest, acc =>
    if c.isDigit then
      match readDigitRun rest (acc * 10 + (c.toNat - '0'.toNat)) with
      | some r => some r
      | none => some (acc * 10 + (c.toNat - '0'.toNat), rest)
    else some (acc, c :: rest)

/-- Read a nonempty run of decimal digits (fails on no digit). -/
def readDigits1 (l : List Char) : Option (Nat × List Char) :=
  match l with
  | c :: _ => if c.isDigit then readDigitRun l 0 else none
  | [] => none

/-- Skip a nonempty run of whitespace. -/
def skipSpaces1 (l : List Char) : Option (List Char) :=
  match l with
  | c :: rest => if isJsSpace c then some (rest.dropWhile isJsSpace) else none
  | [] => none

/-- Month number of a lowercase three-letter English month name. -/
def monthOfName (s : List Char) : Option Nat :=
  match s with
  | ['j', 'a', 'n'] => some 1
  | ['f', 'e', 'b'] => some 2
  | ['m', 'a', 'r'] => some 3
  | ['a', 'p', 'r'] => some 4
  | ['m', 'a', 'y'] => some 5
  | ['j', 'u', 'n'] => some 6
  | ['j', 'u', 'l'] => some 7
  | ['a', 'u', 'g'] => some 8
  | ['s', 'e', 'p'] => some 9
  | ['o', 'c', 't'] => some 10
  | ['n', 'o', 'v'] => some 11
  | ['d', 'e', 'c'] => some 12
  | _ => none

/-- Range validation shared by the date formats: the host rejects
out-of-range calendar components as an Invalid Date. -/
def jsDateValid (mo d h mi sec : Nat) : Bool :=
  1 ≤ mo && mo ≤ 12 && 1 ≤ d && d ≤ 31 && h ≤ 23 && mi ≤ 59 && sec ≤ 59

/-- Parse `HH:MM:SS` (exactly two digits each). -/
def readClock (l : List Char) : Option (Nat × Nat × Nat × List Char) :=
  match readDigitsN 2 l with
  | some (h, ':' :: r1) =>
    match readDigitsN 2 r1 with
    | some (mi, ':' :: r2) =>
      match readDigitsN 2 r2 with
      | some (sec, r3) => some (h, mi, sec, r3)
      | none => none
    | _ => none
  | _ => none

/-- `YYYY-MM-DD<sep>HH:MM:SS` body shared by the space-separated and the
ISO (`T`-separated) formats. -/
def readYmdClock (sep : Char) (l : List Char) : Option (JsDate × List Char) :=
  match readDigitsN 4 l with
  | some (y, '-' :: r1) =>
    match readDigitsN 2 r1 with
    | some (mo, '-' :: r2) =>
      match readDigitsN 2 r2 with
      | some (d, c :: r3) =>
        if c == sep then
          match readClock r3 with
          | some (h, mi, sec, r4) =>
            if jsDateValid mo d h mi sec then some (⟨y, mo, d, h, mi, sec⟩, r4)
            else none
          | none => none
        else none
      | _ => none
    | _ => none
  | _ => none

/-- `Mon DD HH:MM:SS YYYY` (the RFC 3164 timestamp with the year
appended by `robustDateParse`); month name case-insensitive, flexible
whitespace, as accepted by the host parser. -/
def readMonthNameDate (l : List Char) : Option JsDate :=
  match l with
  | a :: b :: c :: r0 =>
    match monthOfName [a.toLower, b.toLower, c.toLower] with
    | some mo =>
      match skipSpaces1 r0 with
      | some r1 =>
        match readDigits1 r1 with
        | some (d, r2) =>
          match skipSpaces1 r2 with
          | some r3 =>
            match readClock r3 with
            | some (h, mi, sec, r4) =>
              match skipSpaces1 r4 with
              | some r5 =>
                match readDigits1 r5 with
                | some (y, []) =>
                  if jsDateValid mo d h mi sec then some ⟨y, mo, d, h, mi, sec⟩
                  else none
                | _ => none
              | none => none
            | none => none
          | none => none
        | none => none
      | none => none
    | none => none
  | _ => none

/-- Optional `.mmm` milliseconds (value dropped: the embedding works at
second precision) and optional `Z` suffix of the ISO format. -/
def readIsoTail (l : List Char) : Bool :=
  match l with
  | [] => true
  | ['Z'] => true
  | '.' :: rest =>
    match readDigits1 rest with
    | some (_, []) => true
    | some (_, ['Z']) => true
    | _ => false
  | _ => false

/-- Model of the host's `new Date(string)` parser, restricted to the
date formats the repository's log dialects feed it:
`YYYY-MM-DD HH:MM:SS`, ISO `YYYY-MM-DDTHH:MM:SS[.mmm][Z]`, and
`Mon DD HH:MM:SS YYYY`.  Returns `none` for an Invalid Date.
Time zones are not modelled (a single implicit zone). -/
def jsDateModel (s : String) : Option JsDate :=
  match readYmdClock ' ' s.data with
  | some (d, []) => some d
  | _ =>
    match readYmdClock 'T' s.data with
    | some (d, rest) => if readIsoTail rest then some d else none
    | none => readMonthNameDate s.data

/-!
A small ECMAScript-style regular-expression interpreter.  Each JavaScript
regex literal of `parser.ts` is transcribed into this AST; the matcher
enumerates candidate matches in exactly the backtracking priority order
of the ECMAScript semantics (alternation prefers the left branch, greedy
repetition prefers longer, lazy repetition prefers shorter, a repetition
iteration that consumes no input terminates the loop), and the search
tries start positions left to right, so the head of the enumeration at
the first successful position is the JavaScript match.
-/

/-- Regex AST: the subset of ECMAScript regex syntax used by
`parser.ts` (`grp` is a numbered capturing group, `star` is greedy `*`,
`lazyStar` is `*?`, `bol`/`eol` are `^`/`$` without the `m` flag). -/
inductive Rx where
  | eps
  | ch (p : Char → Bool)
  | seq (a b : Rx)
  | alt (a b : Rx)
  | star (a : Rx)
  | lazyStar (a : Rx)
  | grp (i : Nat) (a : Rx)
  | bol
  | eol

/-- Structural size of a regex, used to compute a sufficient fuel bound
for the matcher. -/
def rxSize : Rx → Nat
  | .eps => 1
  | .ch _ => 1
  | .seq a b => rxSize a + rxSize b + 1
  | .alt a b => rxSize a + rxSize b + 1
  | .star a => rxSize a + 1
  | .lazyStar a => rxSize a + 1
  | .grp _ a => rxSize a + 1
  | .bol => 1
  | .eol => 1

/-- Capture list: `(group index, start, stop)`, most recent first. -/
abbrev RxCaps := List (Nat × Nat × Nat)

/-- Enumerate the `(end position, captures)` continuations of matching
`re` at position `p` of `s`, in ECMAScript backtracking priority order.
`fuel` bounds the recursion depth; `rxFuel` below always suffices. -/
def rxRun (s : List Char) : Nat → Rx → Nat → RxCaps → List (Nat × RxCaps)
  | 0, _, _, _ => []
  | fuel + 1, re, p, caps =>
    match re with
    | .eps => [(p, caps)]
    | .ch f =>
      match s.get? p with
      | some c => if f c then [(p + 1, caps)] else []
      | none => []
    | .seq a b =>
      (rxRun s fuel a p caps).flatMap fun pc => rxRun s fuel b pc.1 pc.2
    | .alt a b => rxRun s fuel a p caps ++ rxRun s fuel b p caps
    | .star a =>
      (((rxRun s fuel a p caps).filter fun pc => p < pc.1).flatMap fun pc =>
        rxRun s fuel (.star a) pc.1 pc.2) ++ [(p, caps)]
    | .lazyStar a =>
      (p, caps) :: (((rxRun s fuel a p caps).filter fun pc => p < pc.1).flatMap fun pc =>
        rxRun s fuel (.lazyStar a) pc.1 pc.2)
    | .grp i a =>
      (rxRun s fuel a p caps).map fun pc => (pc.1, (i, p, pc.1) :: pc.2)
    | .bol => if p = 0 then [(p, caps)] else []
    | .eol => if p = s.length then [(p, caps)] else []

/-- Fuel sufficient for `rxRun`: every recursive call either descends
into a structurally smaller regex or advances the position, so the
recursion depth is below `(size + 2) * (length + 2)`. -/
def rxFuel (re : Rx) (s : List Char) : Nat :=
  (rxSize re + 2) * (s.length + 2) + 8

/-- The result of a successful JavaScript `String.prototype.match`:
start index, end index, captures, and the input (whose `input` property
the key-value pattern's extractor reads). -/
structure RxMatch where
  input : List Char
  index : Nat
  stop : Nat
  caps : RxCaps
deriving DecidableEq, Repr

/-- Capture group `k` as a string (`""` for a group that did not
participate; every group of the transcribed regexes participates in
every successful match). -/
def capStr (m : RxMatch) (k : Nat) : String :=
  match m.caps.find? (fun t => t.1 == k) with
  | some (_, st, en) => String.mk ((m.input.drop st).take (en - st))
  | none => ""

/-- The full matched text (`parts[0]`). -/
def fullStr (m : RxMatch) : String :=
  String.mk ((m.input.drop m.index).take (m.stop - m.index))

/-- Try the regex at positions `p, p+1, ...` (left to right, as the
ECMAScript search does); `fuel` counts the remaining positions. -/
def rxSearchFrom (re : Rx) (s : List Char) : Nat → Nat → Option RxMatch
  | 0, _ => none
  | fuel + 1, p =>
    if p > s.length then none
    else
      match (rxRun s (rxFuel re s) re p []).head? with
      | some (e, caps) => some ⟨s, p, e, caps⟩
      | none => rxSearchFrom re s fuel (p + 1)

/-- Model of `line.match(regex)` for a regex without the `g` flag. -/
def jsMatch (re : Rx) (s : String) : Option RxMatch :=
  rxSearchFrom re s.data (s.data.length + 1) 0

/-- Literal string regex. -/
def rxLit (s : String) : Rx :=
  s.data.foldr (fun c r => Rx.seq (Rx.ch (fun x => x == c)) r) Rx.eps

/-- Character class given by an explicit list of characters. -/
def rxCls (s : String) : Rx := Rx.ch (fun c => s.data.contains c)

/-- Negated character class. -/
def rxNCls (s : String) : Rx := Rx.ch (fun c => !s.data.contains c)

/-- `?` (greedy option). -/
def rxOpt (a : Rx) : Rx := Rx.alt a Rx.eps

/-- `+` (greedy). -/
def rxPlus (a : Rx) : Rx := Rx.seq a (Rx.star a)

/-- `{n}`: exactly `n` repetitions. -/
def rxRep : Nat → Rx → Rx
  | 0, _ => Rx.eps
  | n + 1, a => Rx.seq a (rxRep n a)

/-- Sequence of a list of regexes. -/
def rxSeq (l : List Rx) : Rx := l.foldr Rx.seq Rx.eps

/-- `\d`. -/
def rxDigit : Rx := Rx.ch Char.isDigit

/-- `\w` (ASCII word character). -/
def rxWord : Rx := Rx.ch (fun c => c.isAlphanum || c == '_')

/-- `\s`. -/
def rxSpace : Rx := Rx.ch isJsSpace

/-- `.` (any character except a line terminator). -/
def rxAny : Rx := Rx.ch (fun c => !(c == '\n' || c == '\r'))

/-- The quote character `'` (written via its code point to keep source
scanning simple). -/
def quoteChar : Char := Char.ofNat 39

/-- Model of `source.replace(/\[\d+\]/, '')` from the modern-syslog
extractor: remove the first `[digits]` span, if any. -/
def stripBracketNumAux : List Char → List Char
  | [] => []
  | '[' :: rest =>
    (match readDigits1 rest with
     | some (_, ']' :: rest2) => rest2
     | _ => '[' :: stripBracketNumAux rest)
  | c :: rest => c :: stripBracketNumAux rest

/-- String version of `stripBracketNumAux`. -/
def stripBracketNum (s : String) : String := String.mk (stripBracketNumAux s.data)

/-- Model of `s.replace(',', '.')`: replace the first comma only. -/
def replaceCommaDotAux : List Char → List Char
  | [] => []
  | ',' :: rest => '.' :: rest
  | c :: rest => c :: replaceCommaDotAux rest

/-- String version of `replaceCommaDotAux`. -/
def replaceCommaDot (s : String) : String := String.mk (replaceCommaDotAux s.data)

/-- Model of `actions.replace(/\n\s+/g, ' ')`: every newline followed by
at least one whitespace character, together with the maximal whitespace
run after it, becomes a single space.  The flag records that a run is
being swallowed. -/
def squashNlWsAux : List Char → Bool → List Char
  | [], _ => []
  | c :: rest, true =>
    if isJsSpace c then squashNlWsAux rest true else c :: squashNlWsAux rest false
  | '\n' :: rest, false =>
    (match rest with
     | d :: _ => if isJsSpace d then ' ' :: squashNlWsAux rest true
                 else '\n' :: squashNlWsAux rest false
     | [] => ['\n'])
  | c :: rest, false => c :: squashNlWsAux rest false

/-- String version of `squashNlWsAux`. -/
def squashNlWs (s : String) : String := String.mk (squashNlWsAux s.data false)

/-- Embeds `inferLevelFromMessage` of `parser.ts`: case-insensitive
substring search against an ordered keyword list, most severe first. -/
def inferLevelFromMessage (message : String) : EventLevel :=
  let lowerMessage := jsToLower message
  if jsIncludes lowerMessage "emergency" then .Emergency
  else if jsIncludes lowerMessage "alert" then .Alert
  else if jsIncludes lowerMessage "critical" || jsIncludes lowerMessage "crit" then .Critical
  else if jsIncludes lowerMessage "error" || jsIncludes lowerMessage "err"
       || jsIncludes lowerMessage "fail" || jsIncludes lowerMessage "failure" then .Error
  else if jsIncludes lowerMessage "warning" || jsIncludes lowerMessage "warn" then .Warning
  else if jsIncludes lowerMessage "notice" then .Notice
  else if jsIncludes lowerMessage "debug" then .Debug
  else if jsIncludes lowerMessage "verbose" then .Verbose
  else .Information

/-- Embeds `getLevelFromSyslogPriority` of `parser.ts`: the severity is
the priority modulo 8, mapped through the fixed syslog table. -/
def getLevelFromSyslogPriority (priority : Nat) : EventLevel :=
  match priority % 8 with
  | 0 => .Emergency
  | 1 => .Alert
  | 2 => .Critical
  | 3 => .Error
  | 4 => .Warning
  | 5 => .Notice
  | 6 => .Information
  | 7 => .Debug
  | _ => .Information

/-- Embeds `robustDateParse` of `parser.ts`: append the current year to
the year-less timestamp, and if the parsed date is in the future
relative to `now`, set its full year to the current year minus one.
`nd` is the host's `new Date(string)` parser. -/
def robustDateParse (nd : String → Option JsDate) (now : JsDate)
    (dateString : String) : Option JsDate :=
  match nd (dateString ++ " " ++ toString now.year) with
  | none => none
  | some d =>
    if jsGetTime d > jsGetTime now then some { d with year := now.year - 1 }
    else some d

/-- Embeds `mapGenericLevel` of `parser.ts`. -/
def mapGenericLevel (level : String) : EventLevel :=
  let upperLevel := jsToUpper level
  if jsIncludes upperLevel "INFO" then .Information
  else if jsIncludes upperLevel "WARN" then .Warning
  else if jsIncludes upperLevel "ERR" then .Error
  else if jsIncludes upperLevel "CRIT" then .Critical
  else if jsIncludes upperLevel "FATAL" then .Critical
  else if jsIncludes upperLevel "ALERT" then .Alert
  else if jsIncludes upperLevel "EMERG" then .Emergency
  else if jsIncludes upperLevel "DEBUG" then .Debug
  else if jsIncludes upperLevel "VERBOSE" then .Verbose
  else if jsIncludes upperLevel "NOTICE" then .Notice
  else .Information

/-- Embeds `mapWindowsLevel` of `parser.ts`. -/
def mapWindowsLevel (level : String) : EventLevel :=
  match jsToLower level with
  | "information" => .Information
  | "warning" => .Warning
  | "error" => .Error
  | "critical" => .Critical
  | "verbose" => .Verbose
  | _ => .Information

/-- The partial record a pattern's extractor produces
(`Partial<Omit<LogEntry, 'id' | 'filename'>>`). -/
structure PartialEntry where
  timestamp : Option JsDate := none
  level : Option EventLevel := none
  source : Option String := none
  message : Option String := none
deriving DecidableEq, Repr

/-- One registered pattern: the transcribed regex and the field
extractor, which receives the host date parser `nd` and the current
instant `now` (used only by the RFC 3164 extractor). -/
structure LogPattern where
  rx : Rx
  extract : (String → Option JsDate) → JsDate → RxMatch → PartialEntry

/-- `[A-Z]`. -/
def rxUpperAZ : Rx := Rx.ch (fun c => 'A' ≤ c && c ≤ 'Z')

/-- `[^"\s]`. -/
def rxNotQuoteSpace : Rx := Rx.ch (fun c => !(c == '"' || isJsSpace c))

/-- `[0-9T\:\.\-\+Z]`. -/
def rxTsChar : Rx :=
  Rx.ch (fun c => c.isDigit || c == 'T' || c == ':' || c == '.' || c == '-' || c == '+' || c == 'Z')

/-- `[\w\.\-]`. -/
def rxWordDotDash : Rx := Rx.ch (fun c => c.isAlphanum || c == '_' || c == '.' || c == '-')

/-- `\d{4}-\d{2}-\d{2}\s\d{2}:\d{2}:\d{2}`. -/
def rxYmdHms : Rx :=
  rxSeq [rxRep 4 rxDigit, rxLit "-", rxRep 2 rxDigit, rxLit "-", rxRep 2 rxDigit,
    rxSpace, rxRep 2 rxDigit, rxLit ":", rxRep 2 rxDigit, rxLit ":", rxRep 2 rxDigit]

/-- Pattern 0, `KEY_VALUE_LOG`:
`time="?([^"\s]+)"?\s+level=([A-Z]+)\s+source="?([^"\s]+)"?\s+msg="([^"]+)"`
(unanchored). -/
def keyValueRx : Rx :=
  rxSeq [rxLit "time=", rxOpt (rxLit "\""), Rx.grp 1 (rxPlus rxNotQuoteSpace),
    rxOpt (rxLit "\""), rxPlus rxSpace, rxLit "level=", Rx.grp 2 (rxPlus rxUpperAZ),
    rxPlus rxSpace, rxLit "source=", rxOpt (rxLit "\""), Rx.grp 3 (rxPlus rxNotQuoteSpace),
    rxOpt (rxLit "\""), rxPlus rxSpace, rxLit "msg=", rxLit "\"",
    Rx.grp 4 (rxPlus (rxNCls "\"")), rxLit "\""]

/-- `KEY_VALUE_LOG` pattern with its extractor: the message is the
`msg` capture followed by `parts.input.substring(parts[0].length)`,
trimmed. -/
def keyValuePattern : LogPattern where
  rx := keyValueRx
  extract nd _ m :=
    { timestamp := nd (capStr m 1),
      level := some (mapGenericLevel (capStr m 2)),
      source := some (capStr m 3),
      message := some (jsTrim (capStr m 4 ++ " "
        ++ String.mk (m.input.drop (m.stop - m.index)))) }

/-- Pattern 1, `SYSLOG_MODERN_V2`:
`^([0-9T\:\.\-\+Z]+)\s+([\w\.\-]+)\s+([\w\.\-]+(?:\[\d+\])?):\s+(.*)$`. -/
def syslogModernRx : Rx :=
  rxSeq [Rx.bol, Rx.grp 1 (rxPlus rxTsChar), rxPlus rxSpace,
    Rx.grp 2 (rxPlus rxWordDotDash), rxPlus rxSpace,
    Rx.grp 3 (rxSeq [rxPlus rxWordDotDash,
      rxOpt (rxSeq [rxLit "[", rxPlus rxDigit, rxLit "]"])]),
    rxLit ":", rxPlus rxSpace, Rx.grp 4 (Rx.star rxAny), Rx.eol]

/-- `SYSLOG_MODERN_V2` pattern with its extractor. -/
def syslogModernPattern : LogPattern where
  rx := syslogModernRx
  extract nd _ m :=
    { timestamp := nd (capStr m 1),
      level := some (inferLevelFromMessage (capStr m 4)),
      source := some (stripBracketNum (capStr m 3)),
      message := some (capStr m 4) }

/-- Pattern 2, `DPKG_LOG`: `^(\d{4}-\d{2}-\d{2}\s\d{2}:\d{2}:\d{2})\s+(.*)$`. -/
def dpkgRx : Rx :=
  rxSeq [Rx.bol, Rx.grp 1 rxYmdHms, rxPlus rxSpace, Rx.grp 2 (Rx.star rxAny), Rx.eol]

/-- `DPKG_LOG` pattern with its extractor. -/
def dpkgPattern : LogPattern where
  rx := dpkgRx
  extract nd _ m :=
    { timestamp := nd (capStr m 1),
      level := some (inferLevelFromMessage (capStr m 2)),
      source := some "dpkg",
      message := some (capStr m 2) }

/-- Pattern 3, `RFC_5424`:
`^\<(\d+)\>1\s+([0-9T\:\.\-\+Z]+)\s+([\w\.\-]+)\s+([\w\.\-]+)\s+([\w\.\-]+)\s+([\w\.\-]+)\s+([\w\.\-]+)\s+(.*)$`. -/
def rfc5424Rx : Rx :=
  rxSeq [Rx.bol, rxLit "<", Rx.grp 1 (rxPlus rxDigit), rxLit ">1", rxPlus rxSpace,
    Rx.grp 2 (rxPlus rxTsChar), rxPlus rxSpace, Rx.grp 3 (rxPlus rxWordDotDash),
    rxPlus rxSpace, Rx.grp 4 (rxPlus rxWordDotDash), rxPlus rxSpace,
    Rx.grp 5 (rxPlus rxWordDotDash), rxPlus rxSpace, Rx.grp 6 (rxPlus rxWordDotDash),
    rxPlus rxSpace, Rx.grp 7 (rxPlus rxWordDotDash), rxPlus rxSpace,
    Rx.grp 8 (Rx.star rxAny), Rx.eol]

/-- `RFC_5424` pattern with its extractor. -/
def rfc5424Pattern : LogPattern where
  rx := rfc5424Rx
  extract nd _ m :=
    { timestamp := nd (capStr m 2),
      level := some (getLevelFromSyslogPriority (natOfDigits (capStr m 1))),
      source := some (capStr m 4),
      message := some (capStr m 8) }

/-- Pattern 4, `RFC_3164`:
`^\<(\d+)\>([A-Za-z]{3}\s+\d{1,2}\s+\d{2}:\d{2}:\d{2})\s+([\w\.\-]+)\s+([^:]+):\s+(.*)$`. -/
def rfc3164Rx : Rx :=
  rxSeq [Rx.bol, rxLit "<", Rx.grp 1 (rxPlus rxDigit), rxLit ">",
    Rx.grp 2 (rxSeq [rxRep 3 (Rx.ch Char.isAlpha), rxPlus rxSpace,
      rxDigit, rxOpt rxDigit, rxPlus rxSpace,
      rxRep 2 rxDigit, rxLit ":", rxRep 2 rxDigit, rxLit ":", rxRep 2 rxDigit]),
    rxPlus rxSpace, Rx.grp 3 (rxPlus rxWordDotDash), rxPlus rxSpace,
    Rx.grp 4 (rxPlus (rxNCls ":")), rxLit ":", rxPlus rxSpace,
    Rx.grp 5 (Rx.star rxAny), Rx.eol]

/-- `RFC_3164` pattern with its extractor (the only one that consults
`now`, through `robustDateParse`). -/
def rfc3164Pattern : LogPattern where
  rx := rfc3164Rx
  extract nd now m :=
    { timestamp := robustDateParse nd now (capStr m 2),
      level := some (getLevelFromSyslogPriority (natOfDigits (capStr m 1))),
      source := some (jsTrim (capStr m 4)),
      message := some (jsTrim (capStr m 5)) }

/-- `[0-9\/\s:AMP]`. -/
def rxWinTsChar : Rx :=
  Rx.ch (fun c => c.isDigit || c == '/' || isJsSpace c || c == ':'
    || c == 'A' || c == 'M' || c == 'P')

/-- Pattern 5, `WINDOWS_CSV`:
`^"?([^"]+)"?,"?([0-9\/\s:AMP]+)"?,"?([^"]+)"?,"?\d+"?,"?[^"]*"?,"?([^"]+)"?.*$`. -/
def windowsCsvRx : Rx :=
  rxSeq [Rx.bol, rxOpt (rxLit "\""), Rx.grp 1 (rxPlus (rxNCls "\"")), rxOpt (rxLit "\""),
    rxLit ",", rxOpt (rxLit "\""), Rx.grp 2 (rxPlus rxWinTsChar), rxOpt (rxLit "\""),
    rxLit ",", rxOpt (rxLit "\""), Rx.grp 3 (rxPlus (rxNCls "\"")), rxOpt (rxLit "\""),
    rxLit ",", rxOpt (rxLit "\""), rxPlus rxDigit, rxOpt (rxLit "\""),
    rxLit ",", rxOpt (rxLit "\""), Rx.star (rxNCls "\""), rxOpt (rxLit "\""),
    rxLit ",", rxOpt (rxLit "\""), Rx.grp 4 (rxPlus (rxNCls "\"")), rxOpt (rxLit "\""),
    Rx.star rxAny, Rx.eol]

/-- `WINDOWS_CSV` pattern with its extractor. -/
def windowsCsvPattern : LogPattern where
  rx := windowsCsvRx
  extract nd _ m :=
    { level := some (mapWindowsLevel (capStr m 1)),
      timestamp := nd (capStr m 2),
      source := some (capStr m 3),
      message := some (capStr m 4) }

/-- Pattern 6, `APP_LOG_1`:
`^(\d{4}-\d{2}-\d{2}\s\d{2}:\d{2}:\d{2}(?:,\d{3})?)\s+([A-Z]+)\s+\[([^\]]+)\]\s+(.*)$`. -/
def appLog1Rx : Rx :=
  rxSeq [Rx.bol, Rx.grp 1 (rxSeq [rxYmdHms, rxOpt (rxSeq [rxLit ",", rxRep 3 rxDigit])]),
    rxPlus rxSpace, Rx.grp 2 (rxPlus rxUpperAZ), rxPlus rxSpace, rxLit "[",
    Rx.grp 3 (rxPlus (rxNCls "]")), rxLit "]", rxPlus rxSpace,
    Rx.grp 4 (Rx.star rxAny), Rx.eol]

/-- `APP_LOG_1` pattern with its extractor. -/
def appLog1Pattern : LogPattern where
  rx := appLog1Rx
  extract nd _ m :=
    { timestamp := nd (replaceCommaDot (capStr m 1)),
      level := some (mapGenericLevel (capStr m 2)),
      source := some (capStr m 3),
      message := some (capStr m 4) }

/-- Pattern 7, `ISO_WITH_LEVEL`: `^([0-9T\:\.\-\+Z]+)\s+\[([A-Z]+)\]\s+(.*)$`. -/
def isoWithLevelRx : Rx :=
  rxSeq [Rx.bol, Rx.grp 1 (rxPlus rxTsChar), rxPlus rxSpace, rxLit "[",
    Rx.grp 2 (rxPlus rxUpperAZ), rxLit "]", rxPlus rxSpace,
    Rx.grp 3 (Rx.star rxAny), Rx.eol]

/-- `ISO_WITH_LEVEL` pattern with its extractor. -/
def isoWithLevelPattern : LogPattern where
  rx := isoWithLevelRx
  extract nd _ m :=
    { timestamp := nd (capStr m 1),
      level := some (mapGenericLevel (capStr m 2)),
      source := some "Application",
      message := some (capStr m 3) }

/-- Pattern 8, `FAIL2BAN_LOG`:
`^(\d{4}-\d{2}-\d{2}\s\d{2}:\d{2}:\d{2},\d{3})\s+([\w\.-]+)\s+\[\d+\]:\s+([A-Z]+)\s+(.*)$`. -/
def fail2banRx : Rx :=
  rxSeq [Rx.bol, Rx.grp 1 (rxSeq [rxYmdHms, rxLit ",", rxRep 3 rxDigit]),
    rxPlus rxSpace, Rx.grp 2 (rxPlus rxWordDotDash), rxPlus rxSpace,
    rxLit "[", rxPlus rxDigit, rxLit "]:", rxPlus rxSpace,
    Rx.grp 3 (rxPlus rxUpperAZ), rxPlus rxSpace, Rx.grp 4 (Rx.star rxAny), Rx.eol]

/-- `FAIL2BAN_LOG` pattern with its extractor. -/
def fail2banPattern : LogPattern where
  rx := fail2banRx
  extract nd _ m :=
    { timestamp := nd (replaceCommaDot (capStr m 1)),
      source := some (capStr m 2),
      level := some (mapGenericLevel (capStr m 3)),
      message := some (capStr m 4) }

/-- Pattern 9, `CLOUD_INIT_LOG`:
`^(\d{4}-\d{2}-\d{2}\s\d{2}:\d{2}:\d{2},\d{3})\s+-\s+([\w\.\-]+)\[([A-Z]+)\]:\s+(.*)$`. -/
def cloudInitRx : Rx :=
  rxSeq [Rx.bol, Rx.grp 1 (rxSeq [rxYmdHms, rxLit ",", rxRep 3 rxDigit]),
    rxPlus rxSpace, rxLit "-", rxPlus rxSpace, Rx.grp 2 (rxPlus rxWordDotDash),
    rxLit "[", Rx.grp 3 (rxPlus rxUpperAZ), rxLit "]:", rxPlus rxSpace,
    Rx.grp 4 (Rx.star rxAny), Rx.eol]

/-- `CLOUD_INIT_LOG` pattern with its extractor. -/
def cloudInitPattern : LogPattern where
  rx := cloudInitRx
  extract nd _ m :=
    { timestamp := nd (replaceCommaDot (capStr m 1)),
      source := some (capStr m 2),
      level := some (mapGenericLevel (capStr m 3)),
      message := some (capStr m 4) }

/-- `[\w\s,:]`. -/
def rxCloudTsChar : Rx :=
  Rx.ch (fun c => c.isAlphanum || c == '_' || isJsSpace c || c == ',' || c == ':')

/-- Pattern 10, `CLOUD_INIT_OUTPUT`:
`^Cloud-init v\..*? running '([^']*)' at ([\w\s,:]+\s\+\d{4})\.`
(unanchored at the right). -/
def cloudInitOutputRx : Rx :=
  rxSeq [Rx.bol, rxLit "Cloud-init v.", Rx.lazyStar rxAny, rxLit " running ",
    Rx.ch (fun c => c == quoteChar), Rx.grp 1 (Rx.star (Rx.ch (fun c => !(c == quoteChar)))),
    Rx.ch (fun c => c == quoteChar), rxLit " at ",
    Rx.grp 2 (rxSeq [rxPlus rxCloudTsChar, rxSpace, rxLit "+", rxRep 4 rxDigit]),
    rxLit "."]

/-- `CLOUD_INIT_OUTPUT` pattern with its extractor (the message is the
full matched text, `parts[0]`). -/
def cloudInitOutputPattern : LogPattern where
  rx := cloudInitOutputRx
  extract nd _ m :=
    { timestamp := nd (capStr m 2),
      level := some .Information,
      source := some ("cloud-init:" ++ capStr m 1),
      message := some (fullStr m) }

/-- The registry `LOG_PATTERNS` of `parser.ts`, in priority order. -/
def LOG_PATTERNS : List LogPattern :=
  [keyValuePattern, syslogModernPattern, dpkgPattern, rfc5424Pattern,
   rfc3164Pattern, windowsCsvPattern, appLog1Pattern, isoWithLevelPattern,
   fail2banPattern, cloudInitPattern, cloudInitOutputPattern]

/-- A normalized record (`Omit<LogEntry, 'id'>`): the timestamp is
`none` when the stored `Date` is invalid (`NaN`). -/
structure LogRec where
  filename : String
  timestamp : Option JsDate
  level : EventLevel
  source : String
  message : String
deriving DecidableEq, Repr

/-- JavaScript `||` defaulting on an optional string field (an absent
field and an empty string are both falsy). -/
def jsOrElse (o : Option String) (dflt : String) : String :=
  match o with
  | some s => if s == "" then dflt else s
  | none => dflt

/-- Apply one pattern to a line: on a structural regex match, run the
extractor and keep the result only if its timestamp is a valid date
(the `partialEntry.timestamp && !isNaN(...)` guard). -/
def hitPattern (nd : String → Option JsDate) (now : JsDate)
    (p : LogPattern) (line : String) : Option (JsDate × PartialEntry) :=
  match jsMatch p.rx line with
  | none => none
  | some m =>
    let pe := p.extract nd now m
    match pe.timestamp with
    | some t => some (t, pe)
    | none => none

/-- Walk a pattern list in order; the first pattern that matches with a
valid timestamp wins (the inner `for (const pattern of LOG_PATTERNS)`
loop with its `break`). -/
def firstHitAux (nd : String → Option JsDate) (now : JsDate) (line : String) :
    List LogPattern → Option (JsDate × PartialEntry)
  | [] => none
  | p :: rest =>
    match hitPattern nd now p line with
    | some r => some r
    | none => firstHitAux nd now line rest

/-- The winning extraction for a line over the full registry. -/
def firstValidHit (nd : String → Option JsDate) (now : JsDate)
    (line : String) : Option (JsDate × PartialEntry) :=
  firstHitAux nd now line LOG_PATTERNS

/-- The record pushed for a structurally parsed line, with the `||`
defaulting of `parser.ts` applied at the push site. -/
def mkParsedRec (filename : String) (t : JsDate) (pe : PartialEntry)
    (line : String) : LogRec :=
  { filename := filename, timestamp := some t,
    level := pe.level.getD .Information,
    source := jsOrElse pe.source "Unknown",
    message := jsOrElse pe.message line }

/-- The catch-all record for a line no pattern claimed: it carries the
last known good timestamp, an inferred level, and source `Unknown`. -/
def mkFallbackRec (filename : String) (lastTs : JsDate) (line : String) : LogRec :=
  { filename := filename, timestamp := some lastTs,
    level := inferLevelFromMessage line,
    source := "Unknown",
    message := line }

/-- The per-file line loop of `parseLogFile`: the state is
`(lastKnownTimestamp, successfulParses)`; blank lines are skipped; a
winning pattern updates the timestamp state, the fallback consumes it. -/
def runLines (nd : String → Option JsDate) (now : JsDate) (filename : String) :
    JsDate × Nat → List String → List LogRec × (JsDate × Nat)
  | st, [] => ([], st)
  | st, line :: rest =>
    if jsTrim line == "" then runLines nd now filename st rest
    else
      match firstValidHit nd now line with
      | some (t, pe) =>
        let res := runLines nd now filename (t, st.2 + 1) rest
        (mkParsedRec filename t pe line :: res.1, res.2)
      | none =>
        let res := runLines nd now filename st rest
        (mkFallbackRec filename st.1 line :: res.1, res.2)

/-- One iteration step of the apt-history global regex loop: search the
block regex from `pos`, emit a record per match — with NO timestamp
validation (`parseAptHistoryLog` pushes `new Date(startDate.trim())`
unconditionally) — and resume from the end of the match.  `fuel` bounds
the number of matches (each match consumes at least one character). -/
def aptBlockRx : Rx :=
  rxSeq [rxLit "Start-Date: ",
    Rx.grp 1 (rxPlus (Rx.ch (fun c => c.isDigit || isJsSpace c || c == ':' || c == '-'))),
    rxLit "\n", rxLit "Commandline: ", Rx.grp 2 (rxPlus (rxNCls "\n")), rxLit "\n",
    Rx.grp 3 (rxSeq [Rx.alt (rxLit "Upgrade") (Rx.alt (rxLit "Install") (rxLit "Remove")),
      rxLit ":", rxPlus (rxNCls "\n"),
      Rx.star (rxSeq [rxLit "\n", rxPlus rxSpace, rxAny, rxPlus (rxNCls "\n")])]),
    rxLit "\n", rxLit "End-Date: ",
    Rx.grp 4 (rxPlus (Rx.ch (fun c => c.isDigit || isJsSpace c || c == ':' || c == '-')))]

/-- The record built from one apt-history block match. -/
def mkAptRec (nd : String → Option JsDate) (filename : String) (m : RxMatch) : LogRec :=
  { filename := filename,
    timestamp := nd (jsTrim (capStr m 1)),
    level := .Information,
    source := "apt",
    message := "Command: " ++ jsTrim (capStr m 2) ++ "; Actions: "
      ++ jsTrim (squashNlWs (capStr m 3)) }

/-- The `while ((match = blockRegex.exec(fileContent)) !== null)` loop:
repeated search with the `lastIndex` cursor advanced to each match's
end (the block regex never matches the empty string, so every match
advances the cursor). -/
def aptExecLoop (nd : String → Option JsDate) (filename : String)
    (s : List Char) : Nat → Nat → List LogRec
  | 0, _ => []
  | fuel + 1, pos =>
    match rxSearchFrom aptBlockRx s (s.length + 1 - pos) pos with
    | none => []
    | some m =>
      if m.stop ≤ pos then [mkAptRec nd filename m]
      else mkAptRec nd filename m :: aptExecLoop nd filename s fuel m.stop

/-- Embeds `parseAptHistoryLog` of `parser.ts`. -/
def parseAptHistoryLog (nd : String → Option JsDate) (fileContent filename : String) :
    List LogRec :=
  aptExecLoop nd filename fileContent.data (fileContent.data.length + 1) 0

/-- Embeds `parseLogFile` of `parser.ts`: thrown errors become
`Except.error` of the thrown message.  `now` is the wall-clock instant
(`new Date()`) that seeds the continuation state. -/
def parseLogFile (nd : String → Option JsDate) (now : JsDate)
    (fileContent filename : String) : Except String (List LogRec) :=
  if jsTrim fileContent == "" then
    .error "The uploaded file is empty or contains only whitespace."
  else
    let aptEntries :=
      if jsIncludes filename "apt-history.log" || jsIncludes fileContent "Start-Date:" then
        parseAptHistoryLog nd fileContent filename
      else []
    if aptEntries.length > 0 then .ok aptEntries
    else
      let res := runLines nd now filename (now, 0) (splitLines fileContent)
      let parsedLogs := res.1
      let successfulParses := res.2.2
      if successfulParses == 0
          && 2 * (parsedLogs.countP (fun p => p.source == "Unknown")) > parsedLogs.length then
        .error "Could not parse most entries. Please check the file format."
      else if parsedLogs.length == 0 then
        .error "Could not parse any recognizable log entries. The file might be empty or in an unsupported format."
      else .ok parsedLogs

/-- A record with its caller-assigned sequence identifier. -/
structure LogEntry where
  id : Int
  data : LogRec
deriving DecidableEq, Repr

/-- The sort key used by `handleLogsParsed`
(`new Date(a.timestamp).getTime()`); the theorems below only apply it
to valid timestamps, where it is faithful. -/
def entryTimeKey (e : LogEntry) : Int :=
  match e.data.timestamp with
  | some d => jsGetTime d
  | none => 0

/-- Stable insertion after all elements with a key not exceeding the
new element's key. -/
def insertByTime (x : LogEntry) : List LogEntry → List LogEntry
  | [] => [x]
  | y :: ys => if entryTimeKey y ≤ entryTimeKey x then y :: insertByTime x ys
               else x :: y :: ys

/-- A stable sort by timestamp, as `Array.prototype.sort` (stable per
the ECMAScript specification) with the comparator
`(a, b) => aTime - bTime`. -/
def sortByTime (l : List LogEntry) : List LogEntry :=
  l.foldl (fun acc x => insertByTime x acc) []

/-- Embeds `handleLogsParsed` of `page.tsx`: the base identifier is the
id of the LAST entry of the existing (timestamp-sorted) collection, or
-1 when it is empty; new records get `lastId + 1 + index`; the union is
re-sorted by timestamp. -/
def handleLogsParsed (existing : List LogEntry) (newLogs : List LogRec) :
    List LogEntry :=
  let lastId : Int :=
    match existing.getLast? with
    | some e => e.id
    | none => -1
  let logsWithUniqueIds :=
    (List.enum newLogs).map (fun p => LogEntry.mk (lastId + 1 + (p.1 : Int)) p.2)
  sortByTime (existing ++ logsWithUniqueIds)

/-!  General lemmas about the line loop. -/

/-- Processing a concatenation of line lists processes the second list
from the state the first list leaves behind. -/
theorem runLines_append (nd : String → Option JsDate) (now : JsDate)
    (fn : String) (xs ys : List String) : ∀ st : JsDate × Nat,
    runLines nd now fn st (xs ++ ys)
      = ((runLines nd now fn st xs).1
           ++ (runLines nd now fn (runLines nd now fn st xs).2 ys).1,
         (runLines nd now fn (runLines nd now fn st xs).2 ys).2) := by
  induction xs with
  | nil => intro st; simp [runLines]
  | cons line rest ih =>
    intro st
    simp only [List.cons_append, runLines]
    by_cases hb : jsTrim line == ""
    · simp [hb, ih st]
    · simp only [hb, Bool.false_eq_true, if_false]
      cases firstValidHit nd now line with
      | none => simp [ih st]
      | some tp => simp [ih (tp.1, st.2 + 1)]

/-- Every record the line loop emits carries a valid timestamp: the
pattern branch pushes the validated timestamp, the fallback pushes the
last known good one. -/
theorem runLines_timestamp_isSome (nd : String → Option JsDate) (now : JsDate)
    (fn : String) : ∀ (lines : List String) (st : JsDate × Nat)
    (r : LogRec), r ∈ (runLines nd now fn st lines).1 → r.timestamp.isSome := by
  intro lines
  induction lines with
  | nil => intro st r hr; simp [runLines] at hr
  | cons line rest ih =>
    intro st r hr
    simp only [runLines] at hr
    by_cases hb : jsTrim line == ""
    · simp only [hb, if_true] at hr; exact ih st r hr
    · simp only [hb, Bool.false_eq_true, if_false] at hr
      cases hfv : firstValidHit nd now line with
      | none =>
        rw [hfv] at hr
        simp only [List.mem_cons] at hr
        cases hr with
        | inl h => subst h; rfl
        | inr h => exact ih st r h
      | some tp =>
        rw [hfv] at hr
        simp only [List.mem_cons] at hr
        cases hr with
        | inl h => subst h; rfl
        | inr h => exact ih (tp.1, st.2 + 1) r h

/-- The success counter never decreases. -/
theorem runLines_succ_mono (nd : String → Option JsDate) (now : JsDate)
    (fn : String) : ∀ (lines : List String) (st : JsDate × Nat),
    st.2 ≤ (runLines nd now fn st lines).2.2 := by
  intro lines
  induction lines with
  | nil => intro st; simp [runLines]
  | cons line rest ih =>
    intro st
    simp only [runLines]
    by_cases hb : jsTrim line == ""
    · simp only [hb, if_true]; exact ih st
    · simp only [hb, Bool.false_eq_true, if_false]
      cases firstValidHit nd now line with
      | none => exact ih st
      | some tp =>
        calc st.2 ≤ st.2 + 1 := Nat.le_succ st.2
        _ ≤ (runLines nd now fn (tp.1, st.2 + 1) rest).2.2 := ih (tp.1, st.2 + 1)

/-- A non-blank line that wins a pattern makes the final success
counter positive. -/
theorem runLines_succ_pos (nd : String → Option JsDate) (now : JsDate)
    (fn : String) : ∀ (lines : List String) (st : JsDate × Nat) (l : String),
    l ∈ lines → jsTrim l ≠ "" → firstValidHit nd now l ≠ none →
    1 ≤ (runLines nd now fn st lines).2.2 := by
  intro lines
  induction lines with
  | nil => intro st l hl; simp at hl
  | cons line rest ih =>
    intro st l hl hnb hhit
    simp only [List.mem_cons] at hl
    simp only [runLines]
    by_cases hb : jsTrim line == ""
    · simp only [hb, if_true]
      cases hl with
      | inl h => subst h; simp at hb; exact absurd hb hnb
      | inr h => exact ih st l h hnb hhit
    · simp only [hb, Bool.false_eq_true, if_false]
      cases hl with
      | inl h =>
        subst h
        cases hfv : firstValidHit nd now l with
        | none => exact absurd hfv hhit
        | some tp =>
          have := runLines_succ_mono nd now fn rest (tp.1, st.2 + 1)
          simpa using Nat.le_trans (Nat.le_add_left 1 st.2) this
      | inr h =>
        cases hfv : firstValidHit nd now line with
        | none => exact ih st l h hnb hhit
        | some tp =>
          have := runLines_succ_mono nd now fn rest (tp.1, st.2 + 1)
          simpa using Nat.le_trans (Nat.le_add_left 1 st.2) this

/-- A non-blank line guarantees at least one emitted record. -/
theorem runLines_records_nonempty (nd : String → Option JsDate) (now : JsDate)
    (fn : String) : ∀ (lines : List String) (st : JsDate × Nat) (l : String),
    l ∈ lines → jsTrim l ≠ "" → (runLines nd now fn st lines).1 ≠ [] := by
  intro lines
  induction lines with
  | nil => intro st l hl; simp at hl
  | cons line rest ih =>
    intro st l hl hnb
    simp only [List.mem_cons] at hl
    simp only [runLines]
    by_cases hb : jsTrim line == ""
    · simp only [hb, if_true]
      cases hl with
      | inl h => subst h; simp at hb; exact absurd hb hnb
      | inr h => exact ih st l h hnb
    · simp only [hb, Bool.false_eq_true, if_false]
      cases firstValidHit nd now line with
      | none => simp
      | some tp => simp

/-- When no line wins a pattern, the success counter is unchanged,
every emitted record has source `Unknown`, and exactly one record is
emitted per non-blank line. -/
theorem runLines_all_fallback (nd : String → Option JsDate) (now : JsDate)
    (fn : String) : ∀ (lines : List String) (st : JsDate × Nat),
    (∀ l ∈ lines, firstValidHit nd now l = none) →
    (runLines nd now fn st lines).2.2 = st.2
    ∧ (∀ r ∈ (runLines nd now fn st lines).1, r.source = "Unknown")
    ∧ (runLines nd now fn st lines).1.length
        = lines.countP (fun l => !(jsTrim l == "")) := by
  intro lines
  induction lines with
  | nil => intro st _; refine ⟨by simp [runLines], by simp [runLines], by simp [runLines]⟩
  | cons line rest ih =>
    intro st hall
    have hline := hall line (List.mem_cons_self line rest)
    have hrest : ∀ l ∈ rest, firstValidHit nd now l = none :=
      fun l hl => hall l (List.mem_cons_of_mem line hl)
    obtain ⟨ih1, ih2, ih3⟩ := ih st hrest
    simp only [runLines, hline]
    by_cases hb : jsTrim line == ""
    · simp only [hb, if_true]
      exact ⟨ih1, ih2, by simp [List.countP_cons, hb, ih3]⟩
    · simp only [hb, Bool.false_eq_true, if_false]
      refine ⟨ih1, ?_, ?_⟩
      · intro r hr
        simp only [List.mem_cons] at hr
        cases hr with
        | inl h => subst h; rfl
        | inr h => exact ih2 r h
      · simp [List.countP_cons, hb, ih3]

/-- Every record of the apt-history block extractor has source `apt`. -/
theorem aptExecLoop_source (nd : String → Option JsDate) (fn : String)
    (s : List Char) : ∀ (fuel pos : Nat) (r : LogRec),
    r ∈ aptExecLoop nd fn s fuel pos → r.source = "apt" := by
  intro fuel
  induction fuel with
  | zero => intro pos r hr; simp [aptExecLoop] at hr
  | succ n ih =>
    intro pos r hr
    simp only [aptExecLoop] at hr
    cases hs : rxSearchFrom aptBlockRx s (s.length + 1 - pos) pos with
    | none => rw [hs] at hr; simp at hr
    | some m =>
      rw [hs] at hr
      by_cases hle : m.stop ≤ pos
      · simp only [hle, if_true, List.mem_singleton] at hr; subst hr; rfl
      · simp only [hle, if_false, List.mem_cons] at hr
        cases hr with
        | inl h => subst h; rfl
        | inr h => exact ih m.stop r h

/-- In a pattern list whose first `i` entries reject the line, a hit at
index `i` is the hit the registry walk returns. -/
theorem firstHitAux_first_wins (nd : String → Option JsDate) (now : JsDate)
    (line : String) : ∀ (ps : List LogPattern) (i : Nat) (p : LogPattern)
    (r : JsDate × PartialEntry),
    ps.get? i = some p → hitPattern nd now p line = some r →
    (∀ j, j < i → ∀ q, ps.get? j = some q → hitPattern nd now q line = none) →
    firstHitAux nd now line ps = some r := by
  intro ps
  induction ps with
  | nil => intro i p r hget; simp at hget
  | cons q rest ih =>
    intro i p r hget hhit hbefore
    cases i with
    | zero =>
      simp only [List.get?] at hget
      injection hget with hq
      subst hq
      simp [firstHitAux, hhit]
    | succ n =>
      have hq0 : hitPattern nd now q line = none :=
        hbefore 0 (Nat.succ_pos n) q rfl
      simp only [firstHitAux, hq0]
      exact ih n p r hget hhit
        (fun j hj q2 hq2 => hbefore (j + 1) (Nat.succ_lt_succ hj) q2 hq2)

/-- If no registered regex matches the line, the registry walk rejects
it regardless of the host date parser. -/
theorem firstHitAux_none_of_no_match (nd : String → Option JsDate)
    (now : JsDate) (line : String) : ∀ ps : List LogPattern,
    (∀ p ∈ ps, jsMatch p.rx line = none) →
    firstHitAux nd now line ps = none := by
  intro ps
  induction ps with
  | nil => intro _; rfl
  | cons p rest ih =>
    intro h
    have hp := h p (List.mem_cons_self p rest)
    have hrest := fun q hq => h q (List.mem_cons_of_mem p hq)
    simp only [firstHitAux, hitPattern, hp]
    exact ih hrest

/-- `firstValidHit` form of `firstHitAux_none_of_no_match`. -/
theorem firstValidHit_none_of_no_match (nd : String → Option JsDate)
    (now : JsDate) (line : String)
    (h : ∀ p ∈ LOG_PATTERNS, jsMatch p.rx line = none) :
    firstValidHit nd now line = none :=
  firstHitAux_none_of_no_match nd now line LOG_PATTERNS h

/-- A successful `parseLogFile` result is either the apt-history block
records or the line-loop records. -/
theorem parseLogFile_ok_cases (nd : String → Option JsDate) (now : JsDate)
    (content fn : String) (l : List LogRec)
    (h : parseLogFile nd now content fn = Except.ok l) :
    l = parseAptHistoryLog nd content fn
    ∨ l = (runLines nd now fn (now, 0) (splitLines content)).1 := by
  simp only [parseLogFile] at h
  by_cases hT : (jsTrim content == "") = true
  · simp only [hT, if_true] at h
    simp at h
  · simp only [hT, if_false] at h
    by_cases hB : (jsIncludes fn "apt-history.log" || jsIncludes content "Start-Date:") = true
    · simp only [hB, if_true] at h
      by_cases hlen : (parseAptHistoryLog nd content fn).length > 0
      · simp only [hlen, if_true] at h
        injection h with h2
        exact Or.inl h2.symm
      · simp only [hlen, if_false] at h
        by_cases hc1 : ((runLines nd now fn (now, 0) (splitLines content)).2.2 == 0
            && decide (2 * List.countP (fun p => p.source == "Unknown")
                (runLines nd now fn (now, 0) (splitLines content)).1
              > (runLines nd now fn (now, 0) (splitLines content)).1.length)) = true
        · simp only [hc1, if_true] at h
          simp at h
        · simp only [hc1, if_false] at h
          by_cases hc2 : ((runLines nd now fn (now, 0) (splitLines content)).1.length == 0) = true
          · simp only [hc2, if_true] at h
            simp at h
          · simp only [hc2, if_false] at h
            injection h with h2
            exact Or.inr h2.symm
    · simp only [Bool.not_eq_true] at hB
      simp only [hB, Bool.false_eq_true, if_false, List.length_nil, gt_iff_lt,
        Nat.lt_irrefl] at h
      by_cases hc1 : ((runLines nd now fn (now, 0) (splitLines content)).2.2 == 0
          && decide (2 * List.countP (fun p => p.source == "Unknown")
              (runLines nd now fn (now, 0) (splitLines content)).1
            > (runLines nd now fn (now, 0) (splitLines content)).1.length)) = true
      · simp only [hc1, if_true] at h
        simp at h
      · simp only [hc1, if_false] at h
        by_cases hc2 : ((runLines nd now fn (now, 0) (splitLines content)).1.length == 0) = true
        · simp only [hc2, if_true] at h
          simp at h
        · simp only [hc2, if_false] at h
          injection h with h2
          exact Or.inr h2.symm

/-- When every line of a (non-blank, non-apt) file falls back to the
catch-all, `parseLogFile` throws the unsupported-format error — and
with it discards the fallback records it accumulated. -/
theorem parseLogFile_all_fallback_error (nd : String → Option JsDate)
    (now : JsDate) (content fn : String)
    (hT : (jsTrim content == "") = false)
    (hA : (jsIncludes fn "apt-history.log" || jsIncludes content "Start-Date:") = false)
    (hall : ∀ l ∈ splitLines content, firstValidHit nd now l = none)
    (l0 : String) (hmem : l0 ∈ splitLines content) (hnb : (jsTrim l0 == "") = false) :
    parseLogFile nd now content fn
      = Except.error "Could not parse most entries. Please check the file format." := by
  obtain ⟨hsucc, hunk, _⟩ :=
    runLines_all_fallback nd now fn (splitLines content) (now, 0) hall
  have hsucc0 : (runLines nd now fn (now, 0) (splitLines content)).2.2 = 0 := by
    simpa using hsucc
  have hne : (runLines nd now fn (now, 0) (splitLines content)).1 ≠ [] :=
    runLines_records_nonempty nd now fn (splitLines content) (now, 0) l0 hmem
      (by simpa using hnb)
  have hcount :
      (runLines nd now fn (now, 0) (splitLines content)).1.countP
          (fun p => p.source == "Unknown")
        = (runLines nd now fn (now, 0) (splitLines content)).1.length := by
    apply List.countP_eq_length.mpr
    intro r hr
    simp [hunk r hr]
  have hlenpos : 0 < (runLines nd now fn (now, 0) (splitLines content)).1.length :=
    List.length_pos.mpr hne
  have hc1 : ((runLines nd now fn (now, 0) (splitLines content)).2.2 == 0
      && decide (2 * List.countP (fun p => p.source == "Unknown")
          (runLines nd now fn (now, 0) (splitLines content)).1
        > (runLines nd now fn (now, 0) (splitLines content)).1.length)) = true := by
    rw [Bool.and_eq_true, beq_iff_eq, decide_eq_true_iff]
    refine ⟨hsucc0, ?_⟩
    rw [hcount]
    omega
  simp only [parseLogFile, hT, Bool.false_eq_true, if_false, hA, List.length_nil,
    gt_iff_lt, Nat.lt_irrefl, hc1, if_true]

/-!  Claim theorems. -/

/-- A fixed wall-clock instant used to instantiate concrete scenarios
(`new Date()` at parse time). -/
def wallClock : JsDate := ⟨2026, 10, 11, 12, 0, 0⟩

/-- Modelled from the spec: the RFC 5424/3164 severity table
(0=Emergency, 1=Alert, 2=Critical, 3=Error, 4=Warning, 5=Notice,
6=Information, 7=Debug), for comparison with the code's mapping. -/
def specSyslogSeverityTable : Nat → EventLevel
  | 0 => .Emergency
  | 1 => .Alert
  | 2 => .Critical
  | 3 => .Error
  | 4 => .Warning
  | 5 => .Notice
  | 6 => .Information
  | 7 => .Debug
  | _ => .Information

set_option maxRecDepth 4096 in
/-- C6: for every syslog priority value in [0, 191], the assigned
severity is determined solely by the priority modulo 8, through the
fixed severity table. -/
theorem c6_syslog_priority_mod8 (n : Nat) (h : n ≤ 191) :
    getLevelFromSyslogPriority n = specSyslogSeverityTable (n % 8) := by
  have h8 : n % 8 < 8 := Nat.mod_lt n (by decide)
  unfold getLevelFromSyslogPriority specSyslogSeverityTable
  interval_cases hm : (n % 8) <;> rfl

/-- C6 witness: priority 34 is in range and maps via 34 % 8 = 2 to
Critical. -/
theorem c6_witness :
    getLevelFromSyslogPriority 34 = specSyslogSeverityTable (34 % 8)
    ∧ specSyslogSeverityTable (34 % 8) = EventLevel.Critical :=
  ⟨c6_syslog_priority_mod8 34 (by decide), by decide⟩

/-- C7: the RFC 3164 reconstruction parses the year-less timestamp with
the current year appended; when the host parser returns a date carrying
the current year and that date is strictly in the future relative to
`now`, the result is that date with its year decremented by exactly
one, and otherwise the date is returned unchanged. -/
theorem c7_year_rollback (nd : String → Option JsDate) (now : JsDate)
    (s : String) (d : JsDate)
    (hparse : nd (s ++ " " ++ toString now.year) = some d)
    (hyear : d.year = now.year) :
    robustDateParse nd now s
      = some (if jsGetTime d > jsGetTime now then { d with year := d.year - 1 } else d) := by
  unfold robustDateParse
  rw [hparse]
  dsimp only
  by_cases hf : jsGetTime d > jsGetTime now
  · simp only [if_pos hf]
    rw [hyear]
  · simp only [if_neg hf]

/-- C7 witness: with "now" in January 2025, "Dec 31 23:59:59"
reconstructs first to December 31, 2025 — a future date — and therefore
rolls back to the year 2024. -/
theorem c7_witness :
    robustDateParse jsDateModel ⟨2025, 1, 1, 0, 0, 0⟩ "Dec 31 23:59:59"
      = some ⟨2024, 12, 31, 23, 59, 59⟩ := by
  have h := c7_year_rollback jsDateModel ⟨2025, 1, 1, 0, 0, 0⟩ "Dec 31 23:59:59"
    ⟨2025, 12, 31, 23, 59, 59⟩ (by decide) (by decide)
  rw [if_pos (by decide)] at h
  exact h

/-- C9 counterexample: "critical error warning" contains both "warning"
and "error" as substrings, yet the inferred level is Critical, not
Error, because the more severe "crit" keyword is checked first. -/
theorem c9_counterexample :
    jsIncludes (jsToLower "critical error warning") "warning" = true
    ∧ jsIncludes (jsToLower "critical error warning") "error" = true
    ∧ inferLevelFromMessage "critical error warning" ≠ EventLevel.Error
    ∧ inferLevelFromMessage "critical error warning" = EventLevel.Critical :=
  ⟨by decide, by decide, by decide, by decide⟩

/-- C9 (amended): the inference scans the keywords most severe first,
so a message that contains both "warning" and "error" — and none of the
more severe keywords "emergency", "alert", "critical", "crit" — infers
Error (the Error keyword is checked before Warning). -/
theorem c9_error_before_warning (msg : String)
    (hem : jsIncludes (jsToLower msg) "emergency" = false)
    (hal : jsIncludes (jsToLower msg) "alert" = false)
    (hcl : jsIncludes (jsToLower msg) "critical" = false)
    (hct : jsIncludes (jsToLower msg) "crit" = false)
    (hw : jsIncludes (jsToLower msg) "warning" = true)
    (he : jsIncludes (jsToLower msg) "error" = true) :
    inferLevelFromMessage msg = EventLevel.Error := by
  unfold inferLevelFromMessage
  simp only [hem, hal, hcl, hct, hw, he, Bool.false_eq_true, Bool.false_or,
    Bool.true_or, if_false, if_true]

/-- C9 witness: "an error and a warning occurred" has both keywords and
none of the more severe ones, and infers Error. -/
theorem c9_witness :
    inferLevelFromMessage "an error and a warning occurred" = EventLevel.Error :=
  c9_error_before_warning "an error and a warning occurred"
    (by decide) (by decide) (by decide) (by decide) (by decide) (by decide)

/-- C1 counterexample input: an apt-history block that matches the
Start-Date/End-Date structure but whose start timestamp is not a
parseable date. -/
def aptBadBlock : String :=
  "Start-Date: 9999-99-99 99:99:99\nCommandline: apt install foo\nInstall: foo:amd64 (1.0)\nEnd-Date: 9999-99-99 99:99:99\n"

/-- The record the block extractor emits for `aptBadBlock`: its
timestamp is the invalid date. -/
def aptBadRecord : LogRec :=
  ⟨"apt-history.log", none, .Information, "apt",
   "Command: apt install foo; Actions: Install: foo:amd64 (1.0)"⟩

/-- C1 counterexample: the malformed-timestamp block is NOT skipped —
`parseLogFile` returns it as a record whose timestamp is an invalid
(NaN) date. -/
theorem c1_counterexample :
    parseLogFile jsDateModel wallClock aptBadBlock "apt-history.log"
      = Except.ok [aptBadRecord]
    ∧ aptBadRecord.timestamp = none :=
  ⟨by rfl, by rfl⟩

/-- C1 (amended): every record `parseLogFile` returns with an invalid
timestamp comes from the apt-history block extractor (source `apt`);
the line-by-line classifier only ever emits valid timestamps. -/
theorem c1_invalid_timestamp_only_in_apt_records (nd : String → Option JsDate)
    (now : JsDate) (content fn : String) (l : List LogRec)
    (h : parseLogFile nd now content fn = Except.ok l) :
    ∀ r, r ∈ l → r.timestamp = none → r.source = "apt" := by
  intro r hr hnone
  cases parseLogFile_ok_cases nd now content fn l h with
  | inl hapt =>
    subst hapt
    exact aptExecLoop_source nd fn content.data (content.data.length + 1) 0 r
      (by simpa [parseAptHistoryLog] using hr)
  | inr hline =>
    subst hline
    have hsome := runLines_timestamp_isSome nd now fn (splitLines content) (now, 0) r hr
    rw [hnone] at hsome
    simp at hsome

/-- A second malformed apt block, used to instantiate the C1 theorem. -/
def aptBadBlock2 : String :=
  "Start-Date: 8888-88-88 88:88:88\nCommandline: apt remove bar\nRemove: bar:amd64 (2.0)\nEnd-Date: 8888-88-88 88:88:88\n"

/-- The record emitted for `aptBadBlock2`. -/
def aptBadRecord2 : LogRec :=
  ⟨"h.log", none, .Information, "apt",
   "Command: apt remove bar; Actions: Remove: bar:amd64 (2.0)"⟩

/-- C1 witness: the amended theorem applied at a concrete parse whose
single invalid-timestamp record indeed has source `apt`. -/
theorem c1_witness : aptBadRecord2.source = "apt" :=
  c1_invalid_timestamp_only_in_apt_records jsDateModel wallClock aptBadBlock2 "h.log"
    [aptBadRecord2] (by rfl) aptBadRecord2 (by simp) (by rfl)

/-- C2 counterexample input: one structurally parsed line followed by
two catch-all lines (2 of 3 records are generic). -/
def c2MixedFile : String :=
  "2025-01-01 10:00:00 startup archives unpack\nhello world\nlorem ipsum dolor"

/-- The three records `parseLogFile` returns for `c2MixedFile`. -/
def c2Records : List LogRec :=
  [⟨"c2.log", some ⟨2025, 1, 1, 10, 0, 0⟩, .Information, "dpkg", "startup archives unpack"⟩,
   ⟨"c2.log", some ⟨2025, 1, 1, 10, 0, 0⟩, .Information, "Unknown", "hello world"⟩,
   ⟨"c2.log", some ⟨2025, 1, 1, 10, 0, 0⟩, .Information, "Unknown", "lorem ipsum dolor"⟩]

/-- C2 counterexample: more than 50% of the lines fall through to the
generic catch-all, yet `parseLogFile` returns a plain success — no
warning or error reaches the caller. -/
theorem c2_counterexample :
    parseLogFile jsDateModel wallClock c2MixedFile "c2.log" = Except.ok c2Records
    ∧ 2 * c2Records.countP (fun r => r.source == "Unknown") > c2Records.length :=
  ⟨by rfl, by decide⟩

/-- C2 (amended): the unsupported-format condition is reported only
when ZERO lines structurally parsed — and then it is reported by
throwing, so the already-extracted fallback records are discarded, not
delivered. -/
theorem c2_report_only_when_zero_structural (nd : String → Option JsDate)
    (now : JsDate) (content fn : String)
    (hT : (jsTrim content == "") = false)
    (hA : (jsIncludes fn "apt-history.log" || jsIncludes content "Start-Date:") = false)
    (hall : ∀ l ∈ splitLines content, firstValidHit nd now l = none)
    (l0 : String) (hmem : l0 ∈ splitLines content)
    (hnb : (jsTrim l0 == "") = false) :
    parseLogFile nd now content fn
      = Except.error "Could not parse most entries. Please check the file format." :=
  parseLogFile_all_fallback_error nd now content fn hT hA hall l0 hmem hnb

/-- C2 witness: a two-line file in which no line structurally parses is
rejected wholesale. -/
theorem c2_witness :
    parseLogFile jsDateModel wallClock "hello there\ngeneral kenobi" "c2w.log"
      = Except.error "Could not parse most entries. Please check the file format." :=
  c2_report_only_when_zero_structural jsDateModel wallClock
    "hello there\ngeneral kenobi" "c2w.log" (by decide) (by decide)
    (by
      intro l hl
      have hs : splitLines "hello there\ngeneral kenobi"
          = ["hello there", "general kenobi"] := by rfl
      rw [hs] at hl
      simp only [List.mem_cons, List.not_mem_nil, or_false] at hl
      cases hl with
      | inl h => subst h
                 exact firstValidHit_none_of_no_match jsDateModel wallClock _ (by decide)
      | inr h => subst h
                 exact firstValidHit_none_of_no_match jsDateModel wallClock _ (by decide))
    "hello there" (by decide) (by decide)

/-- C4 counterexample: a file whose entire content is "hello world"
does not yield a record — `parseLogFile` throws the unsupported-format
error, because zero lines structurally parsed and 100% of the records
are generic. -/
theorem c4_counterexample :
    parseLogFile jsDateModel wallClock "hello world" "only.log"
      = Except.error "Could not parse most entries. Please check the file format." := by
  rfl

/-- C4 (amended): for every host date parser and wall clock, parsing a
(non-apt-named) file containing exactly "hello world" is rejected with
the unsupported-format error rather than returning the catch-all
record. -/
theorem c4_hello_world_rejected (nd : String → Option JsDate) (now : JsDate)
    (fn : String) (hfn : jsIncludes fn "apt-history.log" = false) :
    parseLogFile nd now "hello world" fn
      = Except.error "Could not parse most entries. Please check the file format." :=
  parseLogFile_all_fallback_error nd now "hello world" fn (by decide)
    (by rw [hfn]; decide)
    (by
      intro l hl
      have hs : splitLines "hello world" = ["hello world"] := by rfl
      rw [hs] at hl
      simp only [List.mem_cons, List.not_mem_nil, or_false] at hl
      subst hl
      exact firstValidHit_none_of_no_match nd now _ (by decide))
    "hello world" (by decide) (by decide)

/-- C4 witness: the amended theorem at a concrete filename. -/
theorem c4_witness :
    parseLogFile jsDateModel wallClock "hello world" "w.log"
      = Except.error "Could not parse most entries. Please check the file format." :=
  c4_hello_world_rejected jsDateModel wallClock "w.log" (by decide)

/-- C5 counterexample: a line shaped like the spec's example
`level=ERROR msg="x"` does NOT match the key-value pattern (whose regex
also requires `time=` and `source=` fields) and matches no other
pattern either, so it falls through to the catch-all. -/
theorem c5_counterexample :
    jsMatch keyValueRx "level=ERROR msg=\"x\"" = none
    ∧ firstValidHit jsDateModel wallClock "level=ERROR msg=\"x\"" = none :=
  ⟨by decide, by decide⟩

/-- C5 (amended): for a line on which an earlier-priority pattern
produces a structural match with a valid timestamp, that pattern's
extraction is the one `firstValidHit` returns, regardless of any
later-priority pattern that also matches. -/
theorem c5_earliest_pattern_wins (nd : String → Option JsDate) (now : JsDate)
    (line : String) (i : Nat) (p : LogPattern) (r : JsDate × PartialEntry)
    (hget : LOG_PATTERNS.get? i = some p)
    (hhit : hitPattern nd now p line = some r)
    (hbefore : ∀ j, j < i → ∀ q, LOG_PATTERNS.get? j = some q →
      hitPattern nd now q line = none) :
    firstValidHit nd now line = some r :=
  firstHitAux_first_wins nd now line LOG_PATTERNS i p r hget hhit hbefore

/-- A line that structurally matches both the dpkg pattern (priority 2)
and the application-log pattern (priority 6). -/
def c5OverlapLine : String := "2024-01-01 12:00:00 INFO [db] started"

/-- The dpkg extraction that wins on `c5OverlapLine`. -/
def c5Extraction : JsDate × PartialEntry :=
  (⟨2024, 1, 1, 12, 0, 0⟩,
   { timestamp := some ⟨2024, 1, 1, 12, 0, 0⟩, level := some .Information,
     source := some "dpkg", message := some "INFO [db] started" })

/-- C5 witness: on a line matching both the dpkg and application-log
patterns, the earlier (dpkg) extraction wins — source `dpkg`, not the
bracketed source the later pattern would have produced. -/
theorem c5_witness :
    (jsMatch appLog1Rx c5OverlapLine).isSome = true
    ∧ firstValidHit jsDateModel wallClock c5OverlapLine = some c5Extraction :=
  ⟨by decide,
   c5_earliest_pattern_wins jsDateModel wallClock c5OverlapLine 2 dpkgPattern c5Extraction
     (by rfl) (by decide)
     (by
       intro j hj q hq
       interval_cases j
       · rw [show LOG_PATTERNS.get? 0 = some keyValuePattern from rfl] at hq
         injection hq with h
         subst h
         decide
       · rw [show LOG_PATTERNS.get? 1 = some syslogModernPattern from rfl] at hq
         injection hq with h
         subst h
         decide)⟩

/-- C8: during one file's scan, a line that yields a valid timestamp
updates the continuation state, and a line matching no pattern receives
the last successfully parsed timestamp: whatever came before and after,
the record for a no-match line immediately following a line that parsed
with timestamp `t` carries `t` — not the wall-clock fallback the state
started from. -/
theorem c8_continuation_timestamp (nd : String → Option JsDate) (now : JsDate)
    (fn : String) (st : JsDate × Nat) (pre post : List String)
    (l1 l2 : String) (t : JsDate) (pe : PartialEntry)
    (h1 : firstValidHit nd now l1 = some (t, pe))
    (hb1 : (jsTrim l1 == "") = false)
    (h2 : firstValidHit nd now l2 = none)
    (hb2 : (jsTrim l2 == "") = false) :
    (runLines nd now fn st (pre ++ l1 :: l2 :: post)).1.get?
        ((runLines nd now fn st pre).1.length + 1)
      = some (mkFallbackRec fn t l2) := by
  rw [runLines_append]
  simp only
  rw [List.get?_append_right (by omega)]
  have hidx : (runLines nd now fn st pre).1.length + 1
      - (runLines nd now fn st pre).1.length = 1 := by omega
  rw [hidx]
  simp only [runLines, hb1, Bool.false_eq_true, if_false, h1, hb2, h2]
  rfl

/-- C8 witness: a dpkg-format line followed by "hello world" — the
fallback record for the second line carries the first line's parsed
timestamp, not the wall clock. -/
theorem c8_witness :
    (runLines jsDateModel wallClock "c8.log" (wallClock, 0)
        ["2025-01-01 10:00:00 startup archives unpack", "hello world"]).1.get? 1
      = some (mkFallbackRec "c8.log" ⟨2025, 1, 1, 10, 0, 0⟩ "hello world") := by
  have h := c8_continuation_timestamp jsDateModel wallClock "c8.log" (wallClock, 0)
    [] [] "2025-01-01 10:00:00 startup archives unpack" "hello world"
    ⟨2025, 1, 1, 10, 0, 0⟩
    { timestamp := some ⟨2025, 1, 1, 10, 0, 0⟩, level := some .Information,
      source := some "dpkg", message := some "startup archives unpack" }
    (by decide) (by decide) (by decide) (by decide)
  simpa using h

/-- C10: if the (non-blank) input has at least one non-blank line that
structurally matches a registered pattern with a valid timestamp,
`parseLogFile` never throws: the unsupported-format check only fires
when zero lines matched, and the zero-records check cannot fire
either. -/
theorem c10_no_throw_with_structural_line (nd : String → Option JsDate)
    (now : JsDate) (content fn : String)
    (hT : (jsTrim content == "") = false)
    (l0 : String) (hmem : l0 ∈ splitLines content)
    (hnb : (jsTrim l0 == "") = false)
    (hhit : (firstValidHit nd now l0).isSome = true) :
    (parseLogFile nd now content fn).isOk = true := by
  have hhit2 : firstValidHit nd now l0 ≠ none := by
    intro hx
    rw [hx] at hhit
    simp at hhit
  have hnb2 : jsTrim l0 ≠ "" := by simpa using hnb
  have hsucc := runLines_succ_pos nd now fn (splitLines content) (now, 0) l0 hmem hnb2 hhit2
  have hne := runLines_records_nonempty nd now fn (splitLines content) (now, 0) l0 hmem hnb2
  have hs0 : ((runLines nd now fn (now, 0) (splitLines content)).2.2 == 0) = false := by
    rw [beq_eq_false_iff_ne]
    omega
  have hc1 : ((runLines nd now fn (now, 0) (splitLines content)).2.2 == 0
      && decide (2 * List.countP (fun p => p.source == "Unknown")
          (runLines nd now fn (now, 0) (splitLines content)).1
        > (runLines nd now fn (now, 0) (splitLines content)).1.length)) = false := by
    rw [hs0, Bool.false_and]
  have hc2 : ((runLines nd now fn (now, 0) (splitLines content)).1.length == 0) = false := by
    rw [beq_eq_false_iff_ne]
    intro hx
    exact hne (List.length_eq_zero.mp hx)
  simp only [parseLogFile, hT, Bool.false_eq_true, if_false]
  by_cases hB : (jsIncludes fn "apt-history.log" || jsIncludes content "Start-Date:") = true
  · simp only [hB, if_true]
    by_cases hlen : (parseAptHistoryLog nd content fn).length > 0
    · simp only [hlen, if_true]
      rfl
    · simp only [hlen, if_false, hc1, Bool.false_eq_true, hc2]
      rfl
  · simp only [Bool.not_eq_true] at hB
    simp only [hB, Bool.false_eq_true, if_false, List.length_nil, gt_iff_lt,
      Nat.lt_irrefl, hc1, hc2]
    rfl

/-- C10 witness: one structurally parsed line plus one catch-all line —
the parse succeeds. -/
theorem c10_witness :
    (parseLogFile jsDateModel wallClock
        "2025-02-03 04:05:06 stuff happened\nrandom words here" "c10.log").isOk = true :=
  c10_no_throw_with_structural_line jsDateModel wallClock
    "2025-02-03 04:05:06 stuff happened\nrandom words here" "c10.log" (by decide)
    "2025-02-03 04:05:06 stuff happened" (by decide) (by decide) (by decide)

/-- First upload, chronologically later record (gets id 0). -/
def c3FirstFileLate : LogRec :=
  ⟨"f1.log", some ⟨2025, 1, 2, 0, 0, 0⟩, .Information, "dpkg", "later entry"⟩

/-- First upload, chronologically earlier record (gets id 1). -/
def c3FirstFileEarly : LogRec :=
  ⟨"f1.log", some ⟨2025, 1, 1, 0, 0, 0⟩, .Information, "dpkg", "earlier entry"⟩

/-- Second upload, record between the two (receives the colliding id). -/
def c3SecondFile : LogRec :=
  ⟨"f2.log", some ⟨2025, 1, 1, 12, 0, 0⟩, .Information, "dpkg", "middle entry"⟩

/-- C3: `handleLogsParsed` continues ids from the id of the LAST record
of the timestamp-sorted collection, not from the maximum id: after the
first upload the collection is `[id 1, id 0]` (sorted by time), so the
second upload's record is assigned `0 + 1 = 1`, colliding with the
existing id 1 — the merged ids are `[1, 1, 0]` and are not distinct. -/
theorem c3_id_collision :
    (handleLogsParsed (handleLogsParsed [] [c3FirstFileLate, c3FirstFileEarly])
        [c3SecondFile]).map (fun e => e.id) = [1, 1, 0]
    ∧ ¬ ((handleLogsParsed (handleLogsParsed [] [c3FirstFileLate, c3FirstFileEarly])
        [c3SecondFile]).map (fun e => e.id)).Nodup :=
  ⟨by decide, by decide⟩
